import Mathlib

/-!
Verification development for the murlan-ace-client repository.

The client code (React/TypeScript over a supabase backend) is shallowly
embedded: every event handler that talks to the backend becomes a pure
Lean function from its inputs (component state, authenticated user,
randomness oracle, server response) to an `Effects` record listing the
select queries, RPC calls, table inserts, toasts, navigations and state
writes the handler performs.  Server responses and the random number
stream are passed in as explicit arguments.
-/

/-- A JSON-like value as sent in supabase query/insert/RPC payloads.
JS numbers are modelled as rationals. -/
inductive Jval where
  | str (s : String)
  | arr (xs : List String)
  | num (q : Rat)
  | null
deriving DecidableEq, Repr

/-- A supabase `rpc(name, params)` call. -/
structure RpcCall where
  name : String
  params : List (String × Jval)
deriving DecidableEq, Repr

/-- A supabase select query: table, selected columns, `.eq` filters. -/
structure Query where
  table : String
  sel : String
  eqFilters : List (String × String)
deriving DecidableEq, Repr

/-- A supabase `.insert` statement: table and the inserted row. -/
structure InsertStmt where
  table : String
  row : List (String × Jval)
deriving DecidableEq, Repr

/-- A toast notification shown to the user. -/
structure Toast where
  title : String
  description : Option String
  destructive : Bool
deriving DecidableEq, Repr

/-- The observable effects of one client event handler invocation. -/
structure Effects where
  queries : List Query
  rpcs : List RpcCall
  inserts : List InsertStmt
  toasts : List Toast
  navs : List String
  writes : List String
deriving DecidableEq, Repr

/-- The empty effect trace (handler returned without doing anything). -/
def Effects.empty : Effects :=
  { queries := [], rpcs := [], inserts := [], toasts := [], navs := [], writes := [] }

/-- An authenticated user as seen by the client (`useMe().user`). -/
structure User where
  id : String
deriving DecidableEq, Repr

/-- Test `startsWithL pat s` decides whether `pat` is an initial segment of `s`. -/
def startsWithL : List Char → List Char → Bool
  | [], _ => true
  | _ :: _, [] => false
  | a :: as, b :: bs => a == b && startsWithL as bs

/-- Test `containsSeq pat s` decides whether `pat` occurs contiguously in `s`. -/
def containsSeq (pat : List Char) : List Char → Bool
  | [] => pat.isEmpty
  | c :: rest => startsWithL pat (c :: rest) || containsSeq pat rest

/-- JS `s.includes(pat)`: substring containment test. -/
def strIncludes (s pat : String) : Bool :=
  containsSeq pat.data s.data

/-- JS `s.toUpperCase()` restricted to the ASCII range used by the client. -/
def jsToUpper (s : String) : String :=
  String.mk (s.data.map Char.toUpper)

/-- A whitespace character as trimmed by JS `trim()` (ASCII range). -/
def isWsChar (c : Char) : Bool :=
  c == ' ' || c == '\t' || c == '\n' || c == '\r'

/-- JS `s.trim()`: drop whitespace from both ends. -/
def jsTrim (s : String) : String :=
  String.mk (((s.data.dropWhile isWsChar).reverse.dropWhile isWsChar).reverse)

/-- A character matching the class `[A-Z0-9]`. -/
def isUpperAlnumChar (c : Char) : Bool :=
  (65 ≤ c.toNat && c.toNat ≤ 90) || (48 ≤ c.toNat && c.toNat ≤ 57)

/-- The test `/^[A-Z0-9]{6}$/.test(s)` from `joinLobby` in Game.tsx. -/
def codeRegexTest (s : String) : Bool :=
  s.length == 6 && s.data.all isUpperAlnumChar

/-- Function `toggleCard` from Game.tsx: the updater applied to the `selected`
state -- remove the card if present, else append it. -/
def toggleCard (card : String) (prev : List String) : List String :=
  if prev.contains card then prev.filter (fun c => c != card) else prev ++ [card]

/-- The `rounds` row as held in the Game view state (fields the embedded
handlers read).  `current_turn` is nullable in the database. -/
structure Round where
  current_turn : Option String
  passes : Nat
  turn_deadline : Option String
deriving DecidableEq, Repr

/-- JS optional chaining `round?.current_turn`: `none` models
`undefined` (no round loaded), `some none` models SQL `null`. -/
def currentTurnJs (round : Option Round) : Option (Option String) :=
  match round with
  | none => none
  | some r => some r.current_turn

/-- JS `user?.id`. -/
def userIdJs (user : Option User) : Option (Option String) :=
  match user with
  | none => none
  | some u => some (some u.id)

/-- Condition `isMyTurn` from Game.tsx: `round?.current_turn === user?.id`,
with JS strict equality (in particular `undefined === undefined`). -/
def isMyTurn (round : Option Round) (user : Option User) : Bool :=
  currentTurnJs round == userIdJs user

/-- The `disabled` condition of the Play button in Game.tsx:
`!isMyTurn || selected.length === 0`. -/
def playButtonDisabled (round : Option Round) (user : Option User)
    (selected : List String) : Bool :=
  !(isMyTurn round user) || selected.length == 0

/-- Function `handleGameError` from Game.tsx: substring-matches the server error
message and shows a per-kind destructive toast, else a generic one. -/
def handleGameError (msg : String) : Toast :=
  if strIncludes msg "EMPTY_PLAY" then ⟨"Select cards to play", none, true⟩
  else if strIncludes msg "CARD_NOT_OWNED" then
    ⟨"You don\x27t own those cards", none, true⟩
  else if strIncludes msg "FIRST_PLAY_MUST_INCLUDE_3S" then
    ⟨"First play must include 3♠", none, true⟩
  else if strIncludes msg "INVALID_COMBINATION" then ⟨"Invalid combination", none, true⟩
  else if strIncludes msg "DOES_NOT_BEAT_LAST" then ⟨"Must beat last play", none, true⟩
  else if strIncludes msg "TURN_NOT_YOURS" then ⟨"Not your turn", none, true⟩
  else if strIncludes msg "DEADLINE_EXCEEDED" then ⟨"Turn deadline exceeded", none, true⟩
  else ⟨"Error", some msg, true⟩

/-- Handler `playMove` from Game.tsx.  `id`/`user` are the route param and the
authenticated user, `selected` the selected-cards state, `reqId` the
value produced by the `uuidv4()` call, `serverErr` the RPC outcome. -/
def playMove (id : Option String) (user : Option User) (selected : List String)
    (reqId : String) (serverErr : Option String) : Effects :=
  match id, user with
  | some gid, some _ =>
    if selected.length == 0 then Effects.empty
    else
      let call : RpcCall :=
        ⟨"play_move", [("p_game_id", Jval.str gid), ("p_cards", Jval.arr selected),
                       ("p_request_id", Jval.str reqId)]⟩
      match serverErr with
      | some msg => { Effects.empty with rpcs := [call], toasts := [handleGameError msg] }
      | none => { Effects.empty with rpcs := [call], writes := ["setSelected:[]"] }
  | _, _ => Effects.empty

/-- Handler `passTurn` from Game.tsx. -/
def passTurn (id : Option String) (user : Option User)
    (reqId : String) (serverErr : Option String) : Effects :=
  match id, user with
  | some gid, some _ =>
    let call : RpcCall :=
      ⟨"pass_turn", [("p_game_id", Jval.str gid), ("p_request_id", Jval.str reqId)]⟩
    match serverErr with
    | some msg => { Effects.empty with rpcs := [call], toasts := [handleGameError msg] }
    | none => { Effects.empty with rpcs := [call] }
  | _, _ => Effects.empty

/-- The five parallel selects of `fetchInitialData` in Game.tsx plus the
per-player `profiles` lookups (`playerIds` are the rows returned by the
`game_players` query). -/
def fetchInitialDataQueries (gid uid : String) (playerIds : List String) : List Query :=
  [ ⟨"rounds", "*", [("game_id", gid)]⟩,
    ⟨"game_players", "*", [("game_id", gid)]⟩,
    ⟨"player_cards", "card", [("game_id", gid), ("user_id", uid)]⟩,
    ⟨"opponent_hands", "*", [("game_id", gid)]⟩,
    ⟨"games", "*", [("id", gid)]⟩ ]
  ++ playerIds.map (fun p => ⟨"profiles", "username", [("user_id", p)]⟩)

/-- The select issued by `fetchMyCards` in Game.tsx. -/
def fetchMyCardsQueries (gid uid : String) : List Query :=
  [⟨"player_cards", "card", [("game_id", gid), ("user_id", uid)]⟩]

/-- The select issued by `fetchOpponents` in Game.tsx, the only source
of the `opponents` (per-opponent card count) state. -/
def fetchOpponentsQueries (gid : String) : List Query :=
  [⟨"opponent_hands", "*", [("game_id", gid)]⟩]

/-- All selects the Game view issues over a session: the initial load
plus the realtime/polling refreshers `fetchMyCards` and `fetchOpponents`. -/
def gameViewQueries (gid uid : String) (playerIds : List String) : List Query :=
  fetchInitialDataQueries gid uid playerIds
  ++ fetchMyCardsQueries gid uid
  ++ fetchOpponentsQueries gid

/-- Function `maxPlayersForMode` from Game.tsx (Lobbies component). -/
def maxPlayersForMode (m : String) : Nat :=
  if m == "1v1" then 2
  else if m == "ffa3" then 3
  else 4

/-- The `season_id` insert value: JS `selectedSeason || null`. -/
def jsOrNull (s : String) : Jval :=
  if s == "" then Jval.null else Jval.str s

/-- Printing `Math.random().toString(36)` as a list of characters: the oracle
`digits` is the (possibly empty) base-36 fraction-digit expansion of the
drawn double, so the printed string is `"0." ++ digits`, or `"0"` when
the expansion is empty. -/
def randTo36 (digits : List Char) : List Char :=
  if digits.isEmpty then ['0'] else '0' :: '.' :: digits

/-- JS `.slice(2, 8)` / `.substring(2, 8)` on the printed random. -/
def sliceTake (cs : List Char) : List Char :=
  (cs.drop 2).take 6

/-- Replace characters outside `[A-Z0-9]` by `'A'`
(the `base.replace(/[^A-Z0-9]/g, "A")` step). -/
def replaceNonAlnum (cs : List Char) : List Char :=
  cs.map (fun c => if isUpperAlnumChar c then c else 'A')

/-- JS `.padEnd(6, "A")`. -/
def padEndA (cs : List Char) : List Char :=
  cs ++ List.replicate (6 - cs.length) 'A'

/-- Generator `newLobbyCode` from Game.tsx:
`Math.random().toString(36).slice(2, 8).toUpperCase()` then the
non-alphanumeric replacement and `padEnd(6, "A")`. -/
def newLobbyCode (digits : List Char) : String :=
  String.mk (padEndA (replaceNonAlnum ((sliceTake (randTo36 digits)).map Char.toUpper)))

/-- The inline code generation in part_002's `createLobby`:
`Math.random().toString(36).substring(2, 8).toUpperCase()` -- no
replacement and no padding. -/
def lobbyCodeB (digits : List Char) : String :=
  String.mk ((sliceTake (randTo36 digits)).map Char.toUpper)

/-- Handler `createLobby` from Game.tsx (Lobbies component).  `digits` is the
random oracle for `newLobbyCode`; `lobbyInsertResp` is the outcome of
the `lobbies` insert (error message, or the returned lobby id);
`lpInsertErr` the outcome of the `lobby_players` insert. -/
def createLobbyA (user : Option User) (stake : Rat) (mode : String)
    (selectedSeason : String) (digits : List Char)
    (lobbyInsertResp : Except String String) (lpInsertErr : Option String) : Effects :=
  match user with
  | none => { Effects.empty with toasts := [⟨"Please log in first", none, true⟩] }
  | some u =>
    if stake < 0 then
      { Effects.empty with toasts := [⟨"Invalid stake", some "Stake must be ≥ 0", true⟩] }
    else
      let code := newLobbyCode digits
      let lobbyIns : InsertStmt :=
        ⟨"lobbies",
         [("code", Jval.str code), ("mode", Jval.str mode),
          ("stake_amount", Jval.num stake), ("host_id", Jval.str u.id),
          ("season_id", jsOrNull selectedSeason),
          ("max_players", Jval.num (maxPlayersForMode mode)),
          ("status", Jval.str "waiting")]⟩
      match lobbyInsertResp with
      | Except.error m =>
        { Effects.empty with
          inserts := [lobbyIns],
          toasts := [⟨"Failed to create lobby", some m, true⟩] }
      | Except.ok lobbyId =>
        let lpIns : InsertStmt :=
          ⟨"lobby_players",
           [("lobby_id", Jval.str lobbyId), ("user_id", Jval.str u.id),
            ("order_no", Jval.num 1),
            ("team", if mode == "2v2" then Jval.str "A" else Jval.null)]⟩
        match lpInsertErr with
        | some m =>
          { Effects.empty with
            inserts := [lobbyIns, lpIns],
            toasts := [⟨"Lobby created but join failed", some m, true⟩] }
        | none =>
          { Effects.empty with
            inserts := [lobbyIns, lpIns],
            toasts := [⟨"Lobby created", some ("Share code: " ++ code), false⟩],
            writes := ["setStake:0", "setSelectedSeason:empty", "fetchLobbies"] }

/-- Handler `createLobby` from part_002: single inline code generation, no stake
guard, and the insert carries neither `max_players` nor `status`. -/
def createLobbyB (user : Option User) (stake : Rat) (mode : String)
    (selectedSeason : String) (digits : List Char)
    (lobbyInsertErr : Option String) : Effects :=
  match user with
  | none => { Effects.empty with toasts := [⟨"Please log in first", none, true⟩] }
  | some u =>
    let code := lobbyCodeB digits
    let lobbyIns : InsertStmt :=
      ⟨"lobbies",
       [("code", Jval.str code), ("mode", Jval.str mode),
        ("stake_amount", Jval.num stake), ("host_id", Jval.str u.id),
        ("season_id", jsOrNull selectedSeason)]⟩
    match lobbyInsertErr with
    | some m =>
      { Effects.empty with
        inserts := [lobbyIns],
        toasts := [⟨"Failed to create lobby", some m, true⟩] }
    | none =>
      { Effects.empty with
        inserts := [lobbyIns],
        toasts := [⟨"Lobby created", some ("Share code: " ++ code), false⟩],
        writes := ["setStake:0", "fetchLobbies"] }

/-- The error-message-to-toast mapping of `joinLobby` in Game.tsx. -/
def joinErrToastA (msg : String) : Toast :=
  if strIncludes msg "UNAUTHENTICATED" then ⟨"Please log in first", none, true⟩
  else if strIncludes msg "LOBBY_NOT_FOUND" then ⟨"No lobby with that code", none, true⟩
  else if strIncludes msg "LOBBY_NOT_OPEN" then ⟨"Lobby is not open", none, true⟩
  else if strIncludes msg "ALREADY_IN" then ⟨"You already joined", none, true⟩
  else if strIncludes msg "LOBBY_FULL" then ⟨"Lobby is full", none, true⟩
  else ⟨"Join failed", some msg, true⟩

/-- The error-message-to-toast mapping of `joinLobby` in part_002. -/
def joinErrToastB (msg : String) : Toast :=
  if strIncludes msg "UNAUTHENTICATED" then ⟨"Please log in first", none, true⟩
  else if strIncludes msg "LOBBY_NOT_FOUND" then ⟨"No lobby with that code", none, true⟩
  else if strIncludes msg "LOBBY_NOT_OPEN" then ⟨"Lobby is not open", none, true⟩
  else if strIncludes msg "ALREADY_IN" then ⟨"You already joined", none, true⟩
  else if strIncludes msg "LOBBY_FULL" then ⟨"Lobby is full", none, true⟩
  else ⟨"Join failed", some msg, true⟩

/-- Handler `joinLobby` from Game.tsx: normalizes the entered code, locally
rejects anything failing `/^[A-Z0-9]{6}$/`, then calls the
`join_lobby_by_code` RPC. -/
def joinLobbyA (user : Option User) (joinCode : String)
    (serverErr : Option String) : Effects :=
  match user with
  | none => { Effects.empty with toasts := [⟨"Please log in first", none, true⟩] }
  | some _ =>
    let code := jsToUpper (jsTrim joinCode)
    if !(codeRegexTest code) then
      { Effects.empty with
        toasts := [⟨"Invalid code", some "Use a 6-character code (A–Z, 0–9)", true⟩] }
    else
      let call : RpcCall := ⟨"join_lobby_by_code", [("p_code", Jval.str code)]⟩
      match serverErr with
      | some msg => { Effects.empty with rpcs := [call], toasts := [joinErrToastA msg] }
      | none =>
        { Effects.empty with
          rpcs := [call], toasts := [⟨"Joined lobby!", none, false⟩],
          writes := ["setJoinCode:empty", "fetchLobbies"] }

/-- Handler `joinLobby` from part_002: same normalization, but the only local
gate is `if (!code) return;` -- any nonempty normalized code is sent. -/
def joinLobbyB (user : Option User) (joinCode : String)
    (serverErr : Option String) : Effects :=
  match user with
  | none => { Effects.empty with toasts := [⟨"Please log in first", none, true⟩] }
  | some _ =>
    let code := jsToUpper (jsTrim joinCode)
    if code == "" then Effects.empty
    else
      let call : RpcCall := ⟨"join_lobby_by_code", [("p_code", Jval.str code)]⟩
      match serverErr with
      | some msg => { Effects.empty with rpcs := [call], toasts := [joinErrToastB msg] }
      | none =>
        { Effects.empty with
          rpcs := [call], toasts := [⟨"Joined lobby!", none, false⟩],
          writes := ["setJoinCode:empty", "fetchLobbies"] }

/-- Handler `startGame` from Game.tsx: host gate, then the `start_game` RPC;
`resp` is the RPC outcome (error message, or the new game id). -/
def startGameA (user : Option User) (lobbyId hostId : String)
    (resp : Except String String) : Effects :=
  match user with
  | none => { Effects.empty with toasts := [⟨"Only host can start", none, true⟩] }
  | some u =>
    if !(u.id == hostId) then
      { Effects.empty with toasts := [⟨"Only host can start", none, true⟩] }
    else
      let call : RpcCall := ⟨"start_game", [("p_lobby_id", Jval.str lobbyId)]⟩
      match resp with
      | Except.error msg =>
        if strIncludes msg "INSUFFICIENT_FUNDS" then
          { Effects.empty with
            rpcs := [call],
            toasts := [⟨"Insufficient funds",
                        some "Not enough balance to cover the stake.", true⟩] }
        else
          { Effects.empty with
            rpcs := [call],
            toasts := [⟨"Start failed", some msg, true⟩] }
      | Except.ok gameId =>
        { Effects.empty with rpcs := [call], navs := ["/game/" ++ gameId] }

/-- Handler `startGame` from part_002 (identical control flow to Game.tsx's). -/
def startGameB (user : Option User) (lobbyId hostId : String)
    (resp : Except String String) : Effects :=
  match user with
  | none => { Effects.empty with toasts := [⟨"Only host can start", none, true⟩] }
  | some u =>
    if !(u.id == hostId) then
      { Effects.empty with toasts := [⟨"Only host can start", none, true⟩] }
    else
      let call : RpcCall := ⟨"start_game", [("p_lobby_id", Jval.str lobbyId)]⟩
      match resp with
      | Except.error msg =>
        if strIncludes msg "INSUFFICIENT_FUNDS" then
          { Effects.empty with
            rpcs := [call],
            toasts := [⟨"Insufficient funds",
                        some "Not enough balance to cover the stake.", true⟩] }
        else
          { Effects.empty with
            rpcs := [call],
            toasts := [⟨"Start failed", some msg, true⟩] }
      | Except.ok gameId =>
        { Effects.empty with rpcs := [call], navs := ["/game/" ++ gameId] }

/-- Handler `topUp` from the admin CreditsPanel (part_001). -/
def topUp (selectedUser : Option User) (amount : Rat) (reqId : String)
    (serverErr : Option String) : Effects :=
  match selectedUser with
  | none => Effects.empty
  | some u =>
    if amount ≤ 0 then Effects.empty
    else
      let call : RpcCall :=
        ⟨"admin_top_up",
         [("p_user_id", Jval.str u.id), ("p_amount", Jval.num amount),
          ("p_reason", Jval.str "ADMIN_TOPUP"), ("p_request_id", Jval.str reqId)]⟩
      match serverErr with
      | some m =>
        { Effects.empty with
          rpcs := [call],
          toasts := [⟨"Top-up failed", some m, true⟩] }
      | none =>
        { Effects.empty with
          rpcs := [call],
          toasts := [⟨"Top-up successful", none, false⟩],
          writes := ["setAmount:0", "selectUser"] }

/-- Handler `debit` from the admin CreditsPanel (part_001). -/
def debit (selectedUser : Option User) (amount : Rat) (reqId : String)
    (serverErr : Option String) : Effects :=
  match selectedUser with
  | none => Effects.empty
  | some u =>
    if amount ≤ 0 then Effects.empty
    else
      let call : RpcCall :=
        ⟨"admin_debit",
         [("p_user_id", Jval.str u.id), ("p_amount", Jval.num amount),
          ("p_reason", Jval.str "ADMIN_DEBIT"), ("p_request_id", Jval.str reqId)]⟩
      match serverErr with
      | some m =>
        { Effects.empty with
          rpcs := [call],
          toasts := [⟨"Debit failed", some m, true⟩] }
      | none =>
        { Effects.empty with
          rpcs := [call],
          toasts := [⟨"Debit successful", none, false⟩],
          writes := ["setAmount:0", "selectUser"] }

/-- An RPC call carries a `p_request_id` parameter. -/
def hasRequestIdKey (c : RpcCall) : Bool :=
  c.params.any (fun p => p.1 == "p_request_id")

/-- An RPC call carries a given parameter key/value pair. -/
def hasParam (c : RpcCall) (k : String) (v : Jval) : Bool :=
  c.params.any (fun p => p.1 == k && p.2 == v)

/-- The `code` field of the first `lobbies` insert of an effect trace. -/
def insertedLobbyCode (e : Effects) : Option Jval :=
  match e.inserts with
  | [] => none
  | ins :: _ => (ins.row.filter (fun p => p.1 == "code")).head?.map Prod.snd

/-- The move-legality / turn-discipline error kinds relevant to
`play_move`/`pass_turn` as enumerated in the spec's taxonomy. -/
def moveKinds : List String :=
  ["EMPTY_PLAY", "CARD_NOT_OWNED", "FIRST_PLAY_MUST_INCLUDE_3S",
   "INVALID_COMBINATION", "DOES_NOT_BEAT_LAST", "TURN_NOT_YOURS",
   "DEADLINE_EXCEEDED"]

/-- The error kinds relevant to `join_lobby_by_code`. -/
def joinKinds : List String :=
  ["UNAUTHENTICATED", "LOBBY_NOT_FOUND", "LOBBY_NOT_OPEN", "ALREADY_IN",
   "LOBBY_FULL"]

/-- The characters a base-36 fraction digit can be. -/
def base36Chars : List Char :=
  "0123456789abcdefghijklmnopqrstuvwxyz".data

/-- The row of the first insert of an effect trace (for `createLobby`
this is always the `lobbies` insert). -/
def lobbiesInsertRow (e : Effects) : Option (List (String × Jval)) :=
  e.inserts.head?.map InsertStmt.row

/-- Every base-36 digit uppercases to an `[A-Z0-9]` character. -/
theorem base36_toUpper_alnum : ∀ c ∈ base36Chars, isUpperAlnumChar c.toUpper = true := by
  decide

/-- Characters surviving `replaceNonAlnum` are in `[A-Z0-9]`. -/
theorem replaceNonAlnum_alnum (cs : List Char) :
    ∀ c ∈ replaceNonAlnum cs, isUpperAlnumChar c = true := by
  intro c hc
  rcases List.mem_map.mp hc with ⟨d, _, rfl⟩
  by_cases h : isUpperAlnumChar d
  · simp [h]
  · simp [h]
    decide

/-- Taking `slice(2, 8)` of the printed random is just the first six fraction
digits. -/
theorem sliceTake_randTo36 (ds : List Char) :
    sliceTake (randTo36 ds) = ds.take 6 := by
  cases ds with
  | nil => simp [randTo36, sliceTake]
  | cons c cs => simp [randTo36, sliceTake]

/-- Claim C10: for every card `c` and duplicate-free selection `s`,
`toggleCard c` flips membership of `c`, applying it twice yields a
selection with exactly the elements of `s`, and the selection stays
duplicate-free. -/
theorem toggleCard_membership_flip (c : String) (s : List String) (h : s.Nodup) :
    (c ∈ toggleCard c s ↔ c ∉ s)
    ∧ (∀ x, x ∈ toggleCard c (toggleCard c s) ↔ x ∈ s)
    ∧ (toggleCard c s).Nodup := by
  by_cases hc : c ∈ s
  · have ht1 : toggleCard c s = s.filter (fun x => x != c) := by
      simp [toggleCard, hc]
    have hnotin : c ∉ s.filter (fun x => x != c) := by
      intro hmem
      rcases List.mem_filter.mp hmem with ⟨_, hne⟩
      simp at hne
    refine ⟨?_, ?_, ?_⟩
    · rw [ht1]
      exact ⟨fun hx => absurd hx hnotin, fun hx => absurd hc hx⟩
    · intro x
      have ht2 : toggleCard c (toggleCard c s) = s.filter (fun x => x != c) ++ [c] := by
        rw [ht1]
        simp [toggleCard, hnotin]
      rw [ht2]
      simp only [List.mem_append, List.mem_filter, List.mem_singleton, bne_iff_ne,
        decide_eq_true_eq]
      constructor
      · rintro (⟨hx, _⟩ | rfl)
        · exact hx
        · exact hc
      · intro hx
        by_cases hxc : x = c
        · exact Or.inr hxc
        · exact Or.inl ⟨hx, hxc⟩
    · rw [ht1]
      exact h.filter _
  · have ht1 : toggleCard c s = s ++ [c] := by
      simp [toggleCard, hc]
    refine ⟨?_, ?_, ?_⟩
    · rw [ht1]
      simp [hc]
    · intro x
      have hin : c ∈ s ++ [c] := by simp
      have ht2 : toggleCard c (toggleCard c s) = (s ++ [c]).filter (fun x => x != c) := by
        rw [ht1]
        simp [toggleCard, hin]
      rw [ht2]
      simp only [List.mem_filter, List.mem_append, List.mem_singleton, bne_iff_ne,
        decide_eq_true_eq]
      constructor
      · rintro ⟨hx | rfl, hne⟩
        · exact hx
        · exact absurd rfl hne
      · intro hx
        refine ⟨Or.inl hx, ?_⟩
        intro hxc
        exact hc (hxc ▸ hx)
    · rw [ht1, List.nodup_append]
      exact ⟨h, List.nodup_singleton c, by simp [List.disjoint_singleton, hc]⟩

/-- C10 witness: the theorem instantiated at card "H5" over the
duplicate-free selection ["S3", "H5"]. -/
theorem toggleCard_membership_flip_witness :
    ("H5" ∈ toggleCard "H5" ["S3", "H5"] ↔ "H5" ∉ ["S3", "H5"])
    ∧ (∀ x, x ∈ toggleCard "H5" (toggleCard "H5" ["S3", "H5"]) ↔ x ∈ ["S3", "H5"])
    ∧ (toggleCard "H5" ["S3", "H5"]).Nodup :=
  toggleCard_membership_flip "H5" ["S3", "H5"] (by decide)

/-- Claim C9: with an empty selection (or a missing game id or user)
`playMove` issues no RPC and performs no state change; the Play button
is disabled whenever it is not the caller's turn or the selection is
empty; and every `play_move` RPC ever issued carries the nonempty
selection as its card array, so the Play action cannot produce an
EMPTY_PLAY submission. -/
theorem playMove_no_empty_play (gid : Option String) (user : Option User)
    (sel : List String) (reqId : String) (err : Option String) (round : Option Round)
    (h : sel = [] ∨ gid = none ∨ user = none) :
    playMove gid user sel reqId err = Effects.empty
    ∧ (isMyTurn round user = false ∨ sel = [] →
        playButtonDisabled round user sel = true)
    ∧ (∀ g u s r e c, c ∈ (playMove (some g) (some u) s r e).rpcs →
        s ≠ [] ∧ hasParam c "p_cards" (Jval.arr s) = true) := by
  refine ⟨?_, ?_, ?_⟩
  · rcases h with rfl | rfl | rfl
    · cases gid <;> cases user <;> simp [playMove]
    · simp [playMove]
    · cases gid <;> simp [playMove]
  · intro hdis
    rcases hdis with hturn | rfl
    · simp [playButtonDisabled, hturn]
    · simp [playButtonDisabled]
  · intro g u s r e c hc
    by_cases hs : s = []
    · subst hs
      simp [playMove, Effects.empty] at hc
    · have hlen : (s.length == 0) = false := by
        simp [List.length_eq_zero, hs]
      constructor
      · exact hs
      · cases e with
        | none =>
          simp only [playMove, hlen, Bool.false_eq_true, if_false] at hc
          simp only [List.mem_singleton] at hc
          subst hc
          simp [hasParam]
        | some m =>
          simp only [playMove, hlen, Bool.false_eq_true, if_false] at hc
          simp only [List.mem_singleton] at hc
          subst hc
          simp [hasParam]

/-- C9 witness: the theorem at a concrete empty selection. -/
theorem playMove_no_empty_play_witness :
    playMove (some "G1") (some (User.mk "u1")) [] "r1" none = Effects.empty :=
  (playMove_no_empty_play (some "G1") (some (User.mk "u1")) [] "r1" none none
    (Or.inl rfl)).1

/-- Claim C4: both `startGame` implementations issue the `start_game`
RPC only when the caller is the lobby host; any non-host (or absent)
caller gets the "Only host can start" notice and no RPC, insert,
navigation or state write takes place. -/
theorem startGame_host_only (user : Option User) (lid hid : String)
    (resp : Except String String) :
    (∀ c ∈ (startGameA user lid hid resp).rpcs, ∃ u, user = some u ∧ u.id = hid)
    ∧ (∀ u, user = some u → u.id ≠ hid →
        startGameA user lid hid resp =
          { Effects.empty with toasts := [⟨"Only host can start", none, true⟩] })
    ∧ (startGameA none lid hid resp =
        { Effects.empty with toasts := [⟨"Only host can start", none, true⟩] })
    ∧ (∀ c ∈ (startGameB user lid hid resp).rpcs, ∃ u, user = some u ∧ u.id = hid)
    ∧ (∀ u, user = some u → u.id ≠ hid →
        startGameB user lid hid resp =
          { Effects.empty with toasts := [⟨"Only host can start", none, true⟩] })
    ∧ (startGameB none lid hid resp =
        { Effects.empty with toasts := [⟨"Only host can start", none, true⟩] }) := by
  refine ⟨?_, ?_, rfl, ?_, ?_, rfl⟩
  · intro c hc
    cases user with
    | none => simp [startGameA, Effects.empty] at hc
    | some u =>
      by_cases hu : u.id = hid
      · exact ⟨u, rfl, hu⟩
      · simp [startGameA, hu, Effects.empty] at hc
  · intro u hu hne
    subst hu
    simp [startGameA, hne]
  · intro c hc
    cases user with
    | none => simp [startGameB, Effects.empty] at hc
    | some u =>
      by_cases hu : u.id = hid
      · exact ⟨u, rfl, hu⟩
      · simp [startGameB, hu, Effects.empty] at hc
  · intro u hu hne
    subst hu
    simp [startGameB, hne]

/-- C4 witness: a non-host caller at concrete values is blocked with
the error notice and an otherwise empty effect trace. -/
theorem startGame_host_only_witness :
    startGameA (some (User.mk "alice")) "L1" "bob" (Except.ok "G1") =
      { Effects.empty with toasts := [⟨"Only host can start", none, true⟩] } :=
  (startGame_host_only (some (User.mk "alice")) "L1" "bob" (Except.ok "G1")).2.1
    (User.mk "alice") rfl (by decide)

/-- Claim C3: every select the Game view issues against the
`player_cards` store carries an equality filter pinning `user_id` to
the calling user's own id, and the per-opponent hand information comes
exclusively from the `opponent_hands` card-count view. -/
theorem gameView_own_cards_only (gid uid : String) (playerIds : List String) :
    (∀ q ∈ gameViewQueries gid uid playerIds,
        q.table = "player_cards" → ("user_id", uid) ∈ q.eqFilters)
    ∧ fetchOpponentsQueries gid = [⟨"opponent_hands", "*", [("game_id", gid)]⟩]
    ∧ (∀ q ∈ fetchOpponentsQueries gid, q.table = "opponent_hands") := by
  refine ⟨?_, rfl, ?_⟩
  · intro q hq htab
    simp only [gameViewQueries, fetchInitialDataQueries, fetchMyCardsQueries,
      fetchOpponentsQueries, List.append_assoc, List.mem_append, List.mem_cons,
      List.mem_singleton, List.mem_map, List.not_mem_nil, or_false] at hq
    rcases hq with (rfl | rfl | rfl | rfl | rfl) | ⟨p, _, rfl⟩ | rfl | rfl
    · simp at htab
    · simp at htab
    · simp
    · simp at htab
    · simp at htab
    · simp at htab
    · simp
    · simp at htab
  · intro q hq
    simp only [fetchOpponentsQueries, List.mem_singleton] at hq
    subst hq
    rfl

/-- C3 witness: the theorem at concrete ids, applied to the one
`player_cards` query of the initial load. -/
theorem gameView_own_cards_only_witness :
    ("user_id", "u1") ∈
      (Query.mk "player_cards" "card" [("game_id", "g1"), ("user_id", "u1")]).eqFilters :=
  (gameView_own_cards_only "g1" "u1" []).1
    ⟨"player_cards", "card", [("game_id", "g1"), ("user_id", "u1")]⟩ (by decide) rfl

/-- Claim C1 counterexample: the client issues the `start_game` and
`join_lobby_by_code` RPCs without any request id parameter at all, so
not every mutating RPC carries a client-generated requestId. -/
theorem requestId_counterexample :
    (startGameA (some (User.mk "h")) "L1" "h" (Except.ok "G1")).rpcs =
      [⟨"start_game", [("p_lobby_id", Jval.str "L1")]⟩]
    ∧ (joinLobbyA (some (User.mk "u")) "ABC123" none).rpcs =
      [⟨"join_lobby_by_code", [("p_code", Jval.str "ABC123")]⟩]
    ∧ ((startGameA (some (User.mk "h")) "L1" "h" (Except.ok "G1")).rpcs.all
        hasRequestIdKey = false)
    ∧ ((joinLobbyA (some (User.mk "u")) "ABC123" none).rpcs.all
        hasRequestIdKey = false)
    ∧ ((startGameB (some (User.mk "h")) "L1" "h" (Except.ok "G1")).rpcs.all
        hasRequestIdKey = false)
    ∧ ((joinLobbyB (some (User.mk "u")) "ABC123" none).rpcs.all
        hasRequestIdKey = false) := by
  decide

/-- Claim C1 amended: `play_move`, `pass_turn`, `admin_top_up` and
`admin_debit` always carry the freshly generated request id as
`p_request_id`; `start_game` and `join_lobby_by_code` are always issued
without any request id parameter. -/
theorem requestId_amended (gid code lid hid reqId : String)
    (user : User) (sel : List String) (err : Option String)
    (resp : Except String String) (amount : Rat) :
    ((playMove (some gid) (some user) sel reqId err).rpcs.all
      (fun c => hasParam c "p_request_id" (Jval.str reqId)) = true)
    ∧ ((passTurn (some gid) (some user) reqId err).rpcs.all
      (fun c => hasParam c "p_request_id" (Jval.str reqId)) = true)
    ∧ ((topUp (some user) amount reqId err).rpcs.all
      (fun c => hasParam c "p_request_id" (Jval.str reqId)) = true)
    ∧ ((debit (some user) amount reqId err).rpcs.all
      (fun c => hasParam c "p_request_id" (Jval.str reqId)) = true)
    ∧ ((startGameA (some user) lid hid resp).rpcs.all
      (fun c => !(hasRequestIdKey c)) = true)
    ∧ ((startGameB (some user) lid hid resp).rpcs.all
      (fun c => !(hasRequestIdKey c)) = true)
    ∧ ((joinLobbyA (some user) code err).rpcs.all
      (fun c => !(hasRequestIdKey c)) = true)
    ∧ ((joinLobbyB (some user) code err).rpcs.all
      (fun c => !(hasRequestIdKey c)) = true) := by
  refine ⟨?_, ?_, ?_, ?_, ?_, ?_, ?_, ?_⟩
  · by_cases hs : sel.length == 0 <;> cases err <;>
      simp [playMove, hs, hasParam, Effects.empty]
  · cases err <;> simp [passTurn, hasParam, Effects.empty]
  · by_cases ha : amount ≤ 0 <;> cases err <;>
      simp [topUp, ha, hasParam, Effects.empty]
  · by_cases ha : amount ≤ 0 <;> cases err <;>
      simp [debit, ha, hasParam, Effects.empty]
  · cases resp with
    | error m =>
      by_cases hu : user.id == hid <;>
        by_cases hm : strIncludes m "INSUFFICIENT_FUNDS" <;>
        simp [startGameA, hu, hm, hasRequestIdKey, Effects.empty]
    | ok g =>
      by_cases hu : user.id == hid <;>
        simp [startGameA, hu, hasRequestIdKey, Effects.empty]
  · cases resp with
    | error m =>
      by_cases hu : user.id == hid <;>
        by_cases hm : strIncludes m "INSUFFICIENT_FUNDS" <;>
        simp [startGameB, hu, hm, hasRequestIdKey, Effects.empty]
    | ok g =>
      by_cases hu : user.id == hid <;>
        simp [startGameB, hu, hasRequestIdKey, Effects.empty]
  · by_cases hr : codeRegexTest (jsToUpper (jsTrim code)) <;> cases err <;>
      simp [joinLobbyA, hr, hasRequestIdKey, Effects.empty]
  · by_cases hb : jsToUpper (jsTrim code) == "" <;> cases err <;>
      simp [joinLobbyB, hb, hasRequestIdKey, Effects.empty]

/-- Claim C2 counterexample: the client substring-matches the
human-readable message rather than reading a structural error kind: the
message "error: EMPTY_PLAY detected" is not one of the enumerated error
kinds, yet it is routed to the EMPTY_PLAY handler instead of the
generic one. -/
theorem errorHandling_counterexample :
    handleGameError "error: EMPTY_PLAY detected" = ⟨"Select cards to play", none, true⟩
    ∧ "error: EMPTY_PLAY detected" ∉ moveKinds
    ∧ handleGameError "error: EMPTY_PLAY detected" ≠
        ⟨"Error", some "error: EMPTY_PLAY detected", true⟩ := by
  decide

/-- Claim C2 amended: the client distinguishes error kinds by
substring-matching the server message against the closed enumeration,
in a fixed precedence order; each enumerated kind relevant to moves
(resp. joins) is mapped to its own distinct toast, and a message
containing none of the tokens falls through to the generic handler. -/
theorem errorHandling_amended (msg : String) :
    ((∀ k ∈ moveKinds, strIncludes msg k = false) →
      handleGameError msg = ⟨"Error", some msg, true⟩)
    ∧ ((∀ k ∈ joinKinds, strIncludes msg k = false) →
      joinErrToastA msg = ⟨"Join failed", some msg, true⟩)
    ∧ ((∀ k ∈ joinKinds, strIncludes msg k = false) →
      joinErrToastB msg = ⟨"Join failed", some msg, true⟩)
    ∧ (moveKinds.map handleGameError).Nodup
    ∧ (joinKinds.map joinErrToastA).Nodup
    ∧ (∀ k ∈ moveKinds, strIncludes k k = true)
    ∧ (∀ k ∈ joinKinds, strIncludes k k = true) := by
  refine ⟨?_, ?_, ?_, by decide, by decide, by decide, by decide⟩
  · intro h
    have h1 := h "EMPTY_PLAY" (by decide)
    have h2 := h "CARD_NOT_OWNED" (by decide)
    have h3 := h "FIRST_PLAY_MUST_INCLUDE_3S" (by decide)
    have h4 := h "INVALID_COMBINATION" (by decide)
    have h5 := h "DOES_NOT_BEAT_LAST" (by decide)
    have h6 := h "TURN_NOT_YOURS" (by decide)
    have h7 := h "DEADLINE_EXCEEDED" (by decide)
    simp [handleGameError, h1, h2, h3, h4, h5, h6, h7]
  · intro h
    have h1 := h "UNAUTHENTICATED" (by decide)
    have h2 := h "LOBBY_NOT_FOUND" (by decide)
    have h3 := h "LOBBY_NOT_OPEN" (by decide)
    have h4 := h "ALREADY_IN" (by decide)
    have h5 := h "LOBBY_FULL" (by decide)
    simp [joinErrToastA, h1, h2, h3, h4, h5]
  · intro h
    have h1 := h "UNAUTHENTICATED" (by decide)
    have h2 := h "LOBBY_NOT_FOUND" (by decide)
    have h3 := h "LOBBY_NOT_OPEN" (by decide)
    have h4 := h "ALREADY_IN" (by decide)
    have h5 := h "LOBBY_FULL" (by decide)
    simp [joinErrToastB, h1, h2, h3, h4, h5]

/-- C2 witness: a message containing no enumerated token falls through
to the generic handler. -/
theorem errorHandling_amended_witness :
    handleGameError "boom" = ⟨"Error", some "boom", true⟩ :=
  (errorHandling_amended "boom").1 (by decide)

/-- The two files' error-toast mappings for joins coincide (the code is
textually identical). -/
theorem joinErrToast_eq (msg : String) : joinErrToastA msg = joinErrToastB msg :=
  rfl

/-- Claim C8 counterexample: for the authenticated user and input code
"AB" the Game.tsx implementation blocks locally (invalid-code notice,
no RPC), while the part_002 implementation issues the
`join_lobby_by_code` RPC -- the two joinLobby functions do not call the
RPC under the same conditions. -/
theorem joinLobby_equiv_counterexample :
    (joinLobbyA (some (User.mk "u")) "AB" none).rpcs = []
    ∧ (joinLobbyB (some (User.mk "u")) "AB" none).rpcs =
        [⟨"join_lobby_by_code", [("p_code", Jval.str "AB")]⟩]
    ∧ joinLobbyA (some (User.mk "u")) "AB" none ≠
        joinLobbyB (some (User.mk "u")) "AB" none := by
  decide

/-- Claim C8 amended: the two joinLobby implementations normalize the
code identically and agree whenever the user is absent or the
normalized code is a 6-character uppercase alphanumeric string (same
RPC, same error-to-toast mapping, same success effects); they diverge
only on nonempty normalized codes failing that shape, which Game.tsx
rejects locally and part_002 sends to the server. -/
theorem joinLobby_equiv_amended (user : Option User) (joinCode : String)
    (serverErr : Option String)
    (h : user = none ∨ codeRegexTest (jsToUpper (jsTrim joinCode)) = true) :
    joinLobbyA user joinCode serverErr = joinLobbyB user joinCode serverErr := by
  rcases h with rfl | hcode
  · rfl
  · cases user with
    | none => rfl
    | some u =>
      have hne : (jsToUpper (jsTrim joinCode) == "") = false := by
        rw [beq_eq_false_iff_ne]
        intro he
        rw [he] at hcode
        exact absurd hcode (by decide)
      cases serverErr with
      | none => simp [joinLobbyA, joinLobbyB, hcode, hne]
      | some m => simp [joinLobbyA, joinLobbyB, hcode, hne, joinErrToast_eq]

/-- C8 witness: the two implementations coincide at a concrete
well-formed code. -/
theorem joinLobby_equiv_amended_witness :
    joinLobbyA (some (User.mk "u")) "ABC123" none =
      joinLobbyB (some (User.mk "u")) "ABC123" none :=
  joinLobby_equiv_amended (some (User.mk "u")) "ABC123" none (Or.inr (by decide))

/-- Claim C5 counterexample: `createLobby` performs no uniqueness
re-check (it issues no query at all) and inserts the single generated
candidate unconditionally, so with the open-lobby code set {"ABC123"}
and a random draw whose base-36 digits are "abc123" the inserted code
collides with an open lobby's code. -/
theorem createLobby_collision_counterexample :
    insertedLobbyCode (createLobbyA (some (User.mk "u")) 0 "1v1" ""
        "abc123".data (Except.ok "L1") none) = some (Jval.str "ABC123")
    ∧ "ABC123" ∈ ["ABC123"]
    ∧ (createLobbyA (some (User.mk "u")) 0 "1v1" ""
        "abc123".data (Except.ok "L1") none).queries = []
    ∧ insertedLobbyCode (createLobbyB (some (User.mk "u")) 0 "1v1" ""
        "abc123".data none) = some (Jval.str "ABC123")
    ∧ (createLobbyB (some (User.mk "u")) 0 "1v1" ""
        "abc123".data none).queries = [] := by
  decide

/-- Claim C5 amended: both createLobby implementations generate exactly
one candidate code, perform no re-check of uniqueness against open
lobbies (no query is issued, and the open-lobby codes are not even an
input of the computation), and insert that candidate as the lobby
code. -/
theorem createLobby_single_candidate_amended (u : User) (stake : Rat)
    (mode season : String) (digits : List Char)
    (resp : Except String String) (lpErr : Option String)
    (h : ¬ stake < 0) :
    (createLobbyA (some u) stake mode season digits resp lpErr).queries = []
    ∧ insertedLobbyCode (createLobbyA (some u) stake mode season digits resp lpErr) =
        some (Jval.str (newLobbyCode digits))
    ∧ (createLobbyB (some u) stake mode season digits lpErr).queries = []
    ∧ insertedLobbyCode (createLobbyB (some u) stake mode season digits lpErr) =
        some (Jval.str (lobbyCodeB digits)) := by
  refine ⟨?_, ?_, ?_, ?_⟩
  · rcases resp with m | lobbyId <;> cases lpErr <;>
      simp [createLobbyA, h, Effects.empty]
  · rcases resp with m | lobbyId <;> cases lpErr <;>
      simp [createLobbyA, h, insertedLobbyCode, lobbiesInsertRow, Effects.empty,
        List.filter]
  · cases lpErr <;> simp [createLobbyB, Effects.empty]
  · cases lpErr <;>
      simp [createLobbyB, insertedLobbyCode, lobbiesInsertRow, Effects.empty,
        List.filter]

/-- C5 witness: the amended theorem at a nonnegative stake. -/
theorem createLobby_single_candidate_amended_witness :
    (createLobbyA (some (User.mk "u")) 0 "1v1" "" "abc123".data
      (Except.ok "L1") none).queries = [] :=
  (createLobby_single_candidate_amended (User.mk "u") 0 "1v1" "" "abc123".data
    (Except.ok "L1") none (by norm_num)).1

/-- Claim C6 counterexample: the inline generator of part_002's
`createLobby` pads nothing, so the random draw 0.5 -- whose base-36
printout is "0.i" -- yields the one-character code "I", not a
6-character code. -/
theorem lobbyCode_length_counterexample :
    lobbyCodeB ['i'] = "I"
    ∧ (lobbyCodeB ['i']).length = 1
    ∧ 'i' ∈ base36Chars := by
  decide

/-- Claim C6 amended: `newLobbyCode` (Game.tsx) always returns exactly
6 characters, all in `[A-Z0-9]`; the inline generator of part_002
returns at most 6 characters, all in `[A-Z0-9]`, but possibly fewer
than 6. -/
theorem lobbyCode_shape_amended (digits : List Char)
    (h : ∀ c ∈ digits, c ∈ base36Chars) :
    (newLobbyCode digits).length = 6
    ∧ (∀ c ∈ (newLobbyCode digits).data, isUpperAlnumChar c = true)
    ∧ (lobbyCodeB digits).length ≤ 6
    ∧ (∀ c ∈ (lobbyCodeB digits).data, isUpperAlnumChar c = true) := by
  have hslice : sliceTake (randTo36 digits) = digits.take 6 := sliceTake_randTo36 digits
  have hlen : ((digits.take 6).map Char.toUpper).length ≤ 6 := by
    rw [List.length_map, List.length_take]
    exact min_le_left _ _
  refine ⟨?_, ?_, ?_, ?_⟩
  · show (padEndA (replaceNonAlnum ((sliceTake (randTo36 digits)).map Char.toUpper))).length = 6
    rw [hslice]
    unfold padEndA
    simp only [List.length_append, List.length_replicate, replaceNonAlnum,
      List.length_map, List.length_take]
    omega
  · intro c hc
    have hc2 : c ∈ padEndA (replaceNonAlnum ((digits.take 6).map Char.toUpper)) := by
      show c ∈ padEndA (replaceNonAlnum ((digits.take 6).map Char.toUpper))
      rw [← hslice]
      exact hc
    rcases List.mem_append.mp hc2 with hmem | hrep
    · exact replaceNonAlnum_alnum _ c hmem
    · have : c = 'A' := List.eq_of_mem_replicate hrep
      subst this
      decide
  · show ((sliceTake (randTo36 digits)).map Char.toUpper).length ≤ 6
    rw [hslice]
    exact hlen
  · intro c hc
    have hc2 : c ∈ (digits.take 6).map Char.toUpper := by
      show c ∈ (digits.take 6).map Char.toUpper
      rw [← hslice]
      exact hc
    rcases List.mem_map.mp hc2 with ⟨d, hd, rfl⟩
    exact base36_toUpper_alnum d (h d (List.take_subset 6 digits hd))

/-- C6 witness: the amended theorem at the digit string "abc123". -/
theorem lobbyCode_shape_amended_witness :
    (newLobbyCode "abc123".data).length = 6 :=
  (lobbyCode_shape_amended "abc123".data (by decide)).1

/-- Claim C7 counterexample: part_002's `createLobby` inserts the lobby
row without any `max_players` field at all (capacity is left to the
database), so not every lobby creation assigns the capacity from the
mode. -/
theorem maxPlayers_counterexample :
    (createLobbyB (some (User.mk "u")) 5 "2v2" "" "abc123".data none).inserts =
      [⟨"lobbies",
        [("code", Jval.str "ABC123"), ("mode", Jval.str "2v2"),
         ("stake_amount", Jval.num 5), ("host_id", Jval.str "u"),
         ("season_id", Jval.null)]⟩]
    ∧ ((createLobbyB (some (User.mk "u")) 5 "2v2" "" "abc123".data none).inserts.all
        (fun ins => ins.row.all (fun p => !(p.1 == "max_players"))) = true)
    ∧ (createLobbyB (some (User.mk "u")) 5 "2v2" "" "abc123".data none).inserts ≠ [] := by
  decide

/-- Claim C7 amended: `maxPlayersForMode` maps 1v1 to 2, ffa3 to 3 and
2v2 to 4, and the Game.tsx `createLobby` always inserts
`max_players = maxPlayersForMode(mode)` into the lobby row; the
part_002 `createLobby` never places a `max_players` field in its
insert. -/
theorem maxPlayers_amended (u : User) (stake : Rat) (mode season : String)
    (digits : List Char) (resp : Except String String) (lpErr : Option String) :
    maxPlayersForMode "1v1" = 2
    ∧ maxPlayersForMode "ffa3" = 3
    ∧ maxPlayersForMode "2v2" = 4
    ∧ (∀ row, lobbiesInsertRow (createLobbyA (some u) stake mode season digits resp lpErr) =
          some row →
        ("max_players", Jval.num (maxPlayersForMode mode)) ∈ row)
    ∧ (∀ row, lobbiesInsertRow (createLobbyB (some u) stake mode season digits lpErr) =
          some row →
        "max_players" ∉ row.map Prod.fst) := by
  refine ⟨rfl, rfl, rfl, ?_, ?_⟩
  · intro row hrow
    by_cases hs : stake < 0
    · simp [createLobbyA, hs, lobbiesInsertRow, Effects.empty] at hrow
    · rcases resp with m | lobbyId <;> cases lpErr <;>
        simp [createLobbyA, hs, lobbiesInsertRow, Effects.empty] at hrow <;>
        subst hrow <;> simp
  · intro row hrow
    cases lpErr <;>
      simp [createLobbyB, lobbiesInsertRow, Effects.empty] at hrow <;>
      subst hrow <;> simp

/-- C7 witness: the amended theorem at mode 1v1, applied to the
concrete inserted row. -/
theorem maxPlayers_amended_witness :
    ("max_players", Jval.num (maxPlayersForMode "1v1")) ∈
      [("code", Jval.str (newLobbyCode "abc123".data)), ("mode", Jval.str "1v1"),
       ("stake_amount", Jval.num 0), ("host_id", Jval.str "u"),
       ("season_id", Jval.null),
       ("max_players", Jval.num (maxPlayersForMode "1v1")),
       ("status", Jval.str "waiting")] :=
  (maxPlayers_amended (User.mk "u") 0 "1v1" "" "abc123".data
    (Except.ok "L1") none).2.2.2.1 _ rfl
